import Mathlib

/-!
Verification of the OIDC persistence adapter (adapter.js) and the
relying-party authorization-code callback flow (app.js).

The adapter is embedded as pure functions over an explicit store.
A persisted record (`Row`) is an association list of field names to
string values; the store (`Store`) is a list of rows, each tagged with
the entity kind (model name) of the table it lives in.  Rows only ever
carry fields that are columns of their schema, because the TypeORM
`repository.merge` copies only mapped columns from a payload onto an
entity, and `repository.save` persists only mapped columns.

Asynchronous adapter methods are modelled as `Except String`-valued
functions: a rejected promise (a thrown error) is `Except.error`, a
resolved one `Except.ok`.
-/

set_option autoImplicit false

/-- A persisted record: field names mapped to string values, first
occurrence wins on lookup. -/
abbrev Row := List (String × String)

/-- The whole database: rows tagged with the model (table) they belong to. -/
abbrev Store := List (String × Row)

/-- Field lookup in a row (first occurrence wins). -/
def Row.get : Row → String → Option String
  | [], _ => none
  | (g, w) :: r, f => if g == f then some w else Row.get r f

/-- A TypeORM criteria object `{f1: v1, ...}` matches a row when every
listed field is present with the listed value. -/
def matchesRow (crit : Row) (r : Row) : Bool :=
  crit.all (fun q => Row.get r q.1 == some q.2)

/-- `repository.findOne(criteria)`: first row of the model matching the
criteria. -/
def findOneIn (model : String) (st : Store) (crit : Row) : Option Row :=
  match st with
  | [] => none
  | (k, r) :: rest =>
    if k == model && matchesRow crit r then some r else findOneIn model rest crit

/-- `repository.delete(criteria)`: remove every row of the model matching
the criteria; rows of other models are untouched. -/
def deleteWhere (model : String) (st : Store) (crit : Row) : Store :=
  match st with
  | [] => []
  | (k, r) :: rest =>
    if k == model && matchesRow crit r then deleteWhere model rest crit
    else (k, r) :: deleteWhere model rest crit

/-- The primary-key column of each entity schema declared in adapter.js;
`none` for a model name outside the eight declared schemas. -/
def pkOf : String → Option String
  | "Client" => some "client_id"
  | "Session" => some "uid"
  | "Grant" => some "id"
  | "Code" => some "code"
  | "AccessToken" => some "access_token"
  | "RefreshToken" => some "refresh_token"
  | "DeviceCode" => some "device_code"
  | "Interaction" => some "uid"
  | _ => none

/-- The column set of each entity schema declared in adapter.js. -/
def columns : String → List String
  | "Client" => ["client_id", "client_secret", "redirect_uris", "grant_types",
      "response_types", "token_endpoint_auth_method", "require_pkce"]
  | "Session" => ["uid", "jti", "grantId"]
  | "Grant" => ["id", "accountId", "claims"]
  | "Code" => ["code", "client_id", "redirect_uri", "response_type", "scope",
      "state", "code_challenge", "code_challenge_method"]
  | "AccessToken" => ["access_token", "client_id", "account_id", "scope", "expires_at"]
  | "RefreshToken" => ["refresh_token", "client_id", "account_id", "scope", "expires_at"]
  | "DeviceCode" => ["device_code", "user_code", "client_id", "scope", "expires_at"]
  | "Interaction" => ["uid", "jti", "grantId", "session", "params"]
  | _ => []

/-- `repository.merge(entity, payload)`: copy each payload field that is a
mapped column onto the entity, left to right, later assignments
shadowing earlier values. -/
def mergeCols (cols : List String) (entity : Row) : Row → Row
  | [] => entity
  | (f, v) :: rest =>
    mergeCols cols (if cols.contains f then (f, v) :: entity else entity) rest

/-- `repository.findOne({pk: id}) || repository.create({pk: id})`: the
existing record with the given primary key, or a fresh shell holding
only the key. -/
def existingOrShell (model pk : String) (st : Store) (id : String) : Row :=
  match findOneIn model st [(pk, id)] with
  | some e => e
  | none => [(pk, id)]

/-- `repository.save(entity)`: update the row holding the primary-key
value of the entity, or insert it. -/
def saveEntity (model pk : String) (st : Store) (e : Row) : Store :=
  (match Row.get e pk with
   | some v => deleteWhere model st [(pk, v)]
   | none => st) ++ [(model, e)]

/-- Adapter `upsert(id, payload, expiresIn)`: per-model primary-key
lookup-or-create, merge of the payload, save.  The `expiresIn` argument
is accepted, exactly as in the source, where the body never reads it.
An unrecognized model name hits the final `else` branch and throws. -/
def upsert (model : String) (st : Store) (id : String) (payload : Row)
    (expiresIn : Option Nat) : Except String (Store × Row) :=
  match pkOf model with
  | some pk =>
    let entity := mergeCols (columns model) (existingOrShell model pk st id) payload
    Except.ok (saveEntity model pk st entity, entity)
  | none => Except.error ("Unknown model: " ++ model)

/-- Adapter `find(id)`: per-model primary-key point lookup; throws on an
unrecognized model name. -/
def find (model : String) (st : Store) (id : String) : Except String (Option Row) :=
  match pkOf model with
  | some pk => Except.ok (findOneIn model st [(pk, id)])
  | none => Except.error ("Unknown model: " ++ model)

/-- Adapter `findByUid(uid)`: `findOne({uid})` for Session and
Interaction, `null` for every other model. -/
def findByUid (model : String) (st : Store) (uid : String) : Except String (Option Row) :=
  Except.ok (if model == "Session" || model == "Interaction"
    then findOneIn model st [("uid", uid)] else none)

/-- Adapter `findByUserCode(userCode)`: secondary lookup for DeviceCode,
`null` for every other model. -/
def findByUserCode (model : String) (st : Store) (userCode : String) :
    Except String (Option Row) :=
  Except.ok (if model == "DeviceCode"
    then findOneIn model st [("user_code", userCode)] else none)

/-- Adapter `findByUidAndUserCode(uid, userCode)`: both `device_code` and
`user_code` must match the same DeviceCode row; `null` for every other
model. -/
def findByUidAndUserCode (model : String) (st : Store) (uid userCode : String) :
    Except String (Option Row) :=
  Except.ok (if model == "DeviceCode"
    then findOneIn model st [("device_code", uid), ("user_code", userCode)] else none)

/-- Adapter `destroy(id)`: for the six listed models the source runs
`repository.delete({ uid: id })` - the criteria field is literally `uid`
for every one of them; any other model (DeviceCode and Client included)
is a silent no-op. -/
def destroy (model : String) (st : Store) (id : String) : Except String Store :=
  Except.ok (if model == "Interaction" || model == "Session" || model == "Code"
      || model == "Grant" || model == "AccessToken" || model == "RefreshToken"
    then deleteWhere model st [("uid", id)] else st)

/-- Adapter `consume(id)`: `repository.delete({ code: id })` for the Code
model, a silent no-op for every other model. -/
def consume (model : String) (st : Store) (id : String) : Except String Store :=
  Except.ok (if model == "Code" then deleteWhere model st [("code", id)] else st)

/-- Adapter `destroyByGrantId(grantId)`: `repository.delete(grantId)` for
the Grant model, which is deletion by the primary-key value `id`; a
silent no-op for every other model. -/
def destroyByGrantId (model : String) (st : Store) (grantId : String) :
    Except String Store :=
  Except.ok (if model == "Grant" then deleteWhere model st [("id", grantId)] else st)

/-- Adapter `revokeByGrantId(grantId)`: `repository.delete({ grantId })`
for the AccessToken and RefreshToken models; a silent no-op for every
other model.  Note that neither token schema declares a `grantId`
column. -/
def revokeByGrantId (model : String) (st : Store) (grantId : String) :
    Except String Store :=
  Except.ok (if model == "AccessToken" || model == "RefreshToken"
    then deleteWhere model st [("grantId", grantId)] else st)

/-- The module-level TypeORM connection handle: unset until
`initializeAdapter` has completed. -/
inductive ConnState where
  | unset
  | connected
deriving DecidableEq

/-- The adapter object returned by the factory, bound to the model name
it was constructed for. -/
structure Adapter where
  model : String
deriving DecidableEq

/-- A repository handle for one registered entity. -/
structure Repository where
  entity : String
deriving DecidableEq

/-- The entity schemas registered with the TypeORM connection by
`initializeAdapter` (the entities array of createConnection): exactly
the eight declared schemas. -/
def registeredEntities : List String :=
  ["Client", "Session", "Grant", "Code", "AccessToken", "RefreshToken",
   "DeviceCode", "Interaction"]

/-- `initializeAdapter()`: establishes the module-level connection,
registering the eight entity schemas. -/
def initializeAdapter : ConnState → ConnState :=
  fun _ => ConnState.connected

/-- `connection.getRepository(model)`, called by the factory: in the
TypeORM 0.2.x API this code uses, getRepository throws
RepositoryNotFoundError for any entity name that is not registered
with the connection; for a registered name it returns the repository
handle. -/
def getRepository (model : String) : Except String Repository :=
  if registeredEntities.contains model then Except.ok ⟨model⟩
  else Except.error ("No repository for " ++ model ++ " was found.")

/-- Factory `typeormAdapter(model)`: throws while the module-level
connection is unset; afterwards calls connection.getRepository(model)
- which throws RepositoryNotFoundError for an unregistered entity name
- and returns the adapter object bound to the model. -/
def typeormAdapter : ConnState → String → Except String Adapter
  | ConnState.unset, _ =>
    Except.error "TypeORM connection not established. Call initializeAdapter() first."
  | ConnState.connected, model =>
    match getRepository model with
    | Except.ok _ => Except.ok ⟨model⟩
    | Except.error e => Except.error e

/-! Helper lemmas about the store operations. -/

theorem matchesRow_single (f v : String) (r : Row) :
    matchesRow [(f, v)] r = (Row.get r f == some v) := by
  simp [matchesRow]

theorem get_of_matches_single {pk id : String} {e : Row}
    (h : matchesRow [(pk, id)] e = true) : Row.get e pk = some id := by
  rw [matchesRow_single] at h
  exact eq_of_beq h

theorem matchesRow_of_findOneIn {model : String} {st : Store} {crit : Row} {e : Row}
    (h : findOneIn model st crit = some e) : matchesRow crit e = true := by
  induction st with
  | nil => simp [findOneIn] at h
  | cons hd tl ih =>
    obtain ⟨k, r⟩ := hd
    rw [findOneIn] at h
    by_cases hb : (k == model && matchesRow crit r) = true
    · rw [if_pos hb] at h
      cases h
      exact (Bool.and_eq_true_iff.mp hb).2
    · rw [if_neg hb] at h
      exact ih h

theorem findOneIn_deleteWhere_self (model : String) (st : Store) (crit : Row) :
    findOneIn model (deleteWhere model st crit) crit = none := by
  induction st with
  | nil => simp [deleteWhere, findOneIn]
  | cons hd tl ih =>
    obtain ⟨k, r⟩ := hd
    rw [deleteWhere]
    by_cases hb : (k == model && matchesRow crit r) = true
    · rw [if_pos hb]
      exact ih
    · rw [if_neg hb, findOneIn, if_neg hb]
      exact ih

theorem deleteWhere_idem (model : String) (st : Store) (crit : Row) :
    deleteWhere model (deleteWhere model st crit) crit = deleteWhere model st crit := by
  induction st with
  | nil => simp [deleteWhere]
  | cons hd tl ih =>
    obtain ⟨k, r⟩ := hd
    rw [deleteWhere]
    by_cases hb : (k == model && matchesRow crit r) = true
    · rw [if_pos hb]
      exact ih
    · rw [if_neg hb, deleteWhere, if_neg hb, ih]

theorem findOneIn_append (model : String) (s t : Store) (crit : Row) :
    findOneIn model (s ++ t) crit =
      (match findOneIn model s crit with
       | some r => some r
       | none => findOneIn model t crit) := by
  induction s with
  | nil => simp [findOneIn]
  | cons hd tl ih =>
    obtain ⟨k, r⟩ := hd
    rw [List.cons_append, findOneIn, findOneIn]
    by_cases hb : (k == model && matchesRow crit r) = true
    · rw [if_pos hb, if_pos hb]
    · rw [if_neg hb, if_neg hb, ih]

theorem existingOrShell_get (model pk : String) (st : Store) (id : String) :
    Row.get (existingOrShell model pk st id) pk = some id := by
  rw [existingOrShell]
  cases h : findOneIn model st [(pk, id)] with
  | some e => exact get_of_matches_single (matchesRow_of_findOneIn h)
  | none => simp [Row.get]

theorem get_mergeCols_not_mem (cols : List String) (p : Row) (f : String)
    (hf : ∀ q ∈ p, q.1 ≠ f) :
    ∀ r : Row, Row.get (mergeCols cols r p) f = Row.get r f := by
  induction p with
  | nil => intro r; rw [mergeCols]
  | cons q rest ih =>
    intro r
    obtain ⟨g, w⟩ := q
    have hg : g ≠ f := hf (g, w) (List.mem_cons_self _ _)
    rw [mergeCols]
    rw [ih (fun q hq => hf q (List.mem_cons_of_mem _ hq))]
    by_cases hc : cols.contains g = true
    · rw [if_pos hc, Row.get, if_neg (by simpa using hg)]
    · rw [if_neg hc]

theorem get_mergeCols_mem (cols : List String) (p : Row) (f v : String)
    (hnd : (p.map Prod.fst).Nodup) (hmem : (f, v) ∈ p) (hc : cols.contains f = true) :
    ∀ r : Row, Row.get (mergeCols cols r p) f = some v := by
  induction p with
  | nil => exact absurd hmem (List.not_mem_nil _)
  | cons q rest ih =>
    intro r
    obtain ⟨g, w⟩ := q
    rw [List.map_cons, List.nodup_cons] at hnd
    rcases List.mem_cons.mp hmem with heq | hrest
    · injection heq with h1 h2
      subst h1
      subst h2
      have hnotin : ∀ q ∈ rest, q.1 ≠ f := by
        intro q hq hqf
        have hin : q.1 ∈ rest.map Prod.fst := List.mem_map_of_mem Prod.fst hq
        rw [hqf] at hin
        exact hnd.1 hin
      rw [mergeCols, get_mergeCols_not_mem cols rest f hnotin, if_pos hc,
        Row.get, if_pos (by simp)]
    · rw [mergeCols]
      exact ih hnd.2 hrest _

theorem findOneIn_saveEntity {model pk : String} {st : Store} {e : Row} {id : String}
    (h : Row.get e pk = some id) :
    findOneIn model (saveEntity model pk st e) [(pk, id)] = some e := by
  rw [saveEntity, h, findOneIn_append, findOneIn_deleteWhere_self, findOneIn,
    matchesRow_single, h]
  simp

theorem pk_mem_columns {model pk : String} (h : pkOf model = some pk) :
    (columns model).contains pk = true := by
  rw [pkOf.eq_def] at h
  split at h
  all_goals first
    | (injection h with h2; subst h2; rfl)
    | cases h

/-- C1: the cascade revocation required by the spec fails on the code.
Running the end-to-end scenario of the spec - upsert an AccessToken t1
and a RefreshToken r1, both with a grant reference g1 in the payload,
then revokeByGrantId(g1) on both adapters - leaves the store unchanged
and both tokens still retrievable, because neither token schema has a
grant-reference column: the payload field `grant` is dropped at upsert
and the delete criteria field `grantId` matches no record. -/
theorem c1_revokeByGrantId_cascade_fails :
    upsert "AccessToken" [] "t1" [("grant", "g1"), ("expires_at", "1760003600")] (some 3600)
      = Except.ok ([("AccessToken", [("expires_at", "1760003600"), ("access_token", "t1")])],
          [("expires_at", "1760003600"), ("access_token", "t1")])
    ∧ upsert "RefreshToken"
        [("AccessToken", [("expires_at", "1760003600"), ("access_token", "t1")])]
        "r1" [("grant", "g1")] none
      = Except.ok ([("AccessToken", [("expires_at", "1760003600"), ("access_token", "t1")]),
            ("RefreshToken", [("refresh_token", "r1")])],
          [("refresh_token", "r1")])
    ∧ revokeByGrantId "AccessToken"
        [("AccessToken", [("expires_at", "1760003600"), ("access_token", "t1")]),
         ("RefreshToken", [("refresh_token", "r1")])] "g1"
      = Except.ok [("AccessToken", [("expires_at", "1760003600"), ("access_token", "t1")]),
          ("RefreshToken", [("refresh_token", "r1")])]
    ∧ revokeByGrantId "RefreshToken"
        [("AccessToken", [("expires_at", "1760003600"), ("access_token", "t1")]),
         ("RefreshToken", [("refresh_token", "r1")])] "g1"
      = Except.ok [("AccessToken", [("expires_at", "1760003600"), ("access_token", "t1")]),
          ("RefreshToken", [("refresh_token", "r1")])]
    ∧ find "AccessToken"
        [("AccessToken", [("expires_at", "1760003600"), ("access_token", "t1")]),
         ("RefreshToken", [("refresh_token", "r1")])] "t1"
      = Except.ok (some [("expires_at", "1760003600"), ("access_token", "t1")])
    ∧ find "RefreshToken"
        [("AccessToken", [("expires_at", "1760003600"), ("access_token", "t1")]),
         ("RefreshToken", [("refresh_token", "r1")])] "r1"
      = Except.ok (some [("refresh_token", "r1")])
    ∧ Row.get [("expires_at", "1760003600"), ("access_token", "t1")] "grant" = none
    ∧ Row.get [("refresh_token", "r1")] "grant" = none :=
  ⟨rfl, rfl, rfl, rfl, rfl, rfl, rfl, rfl⟩

/-- C2: for the Code kind, consume(id) followed by find(id) returns
not-found, a second consume(id) is a no-op returning the same store
without an error, and after consumption the code is retrievable by no
lookup (findByUid for Code is unconditionally not-found as well). -/
theorem c2_consume_find_not_found_and_idempotent (st : Store) (id : String) :
    ∃ st1 : Store,
      consume "Code" st id = Except.ok st1
      ∧ find "Code" st1 id = Except.ok none
      ∧ consume "Code" st1 id = Except.ok st1
      ∧ findByUid "Code" st1 id = Except.ok none := by
  refine ⟨deleteWhere "Code" st [("code", id)], rfl, ?_, ?_, rfl⟩
  · show Except.ok (findOneIn "Code" (deleteWhere "Code" st [("code", id)]) [("code", id)])
      = Except.ok none
    rw [findOneIn_deleteWhere_self]
  · show Except.ok (deleteWhere "Code" (deleteWhere "Code" st [("code", id)]) [("code", id)])
      = Except.ok (deleteWhere "Code" st [("code", id)])
    rw [deleteWhere_idem]

/-- C3: passive TTL expiry is absent from the code.  The upsert result
is literally independent of the expiresIn argument (the body never
reads it), no operation consults the expires_at column, and a record
upserted with an already-elapsed expiry (expires_at = 0, expiresIn
given) is still returned by find: no elapsed time can make a record
not-found. -/
theorem c3_expiresIn_ignored_no_expiry :
    (∀ (model : String) (st : Store) (id : String) (payload : Row) (e1 e2 : Option Nat),
      upsert model st id payload e1 = upsert model st id payload e2)
    ∧ upsert "AccessToken" [] "t1" [("expires_at", "0")] (some 3600)
        = Except.ok ([("AccessToken", [("expires_at", "0"), ("access_token", "t1")])],
            [("expires_at", "0"), ("access_token", "t1")])
    ∧ find "AccessToken" [("AccessToken", [("expires_at", "0"), ("access_token", "t1")])] "t1"
        = Except.ok (some [("expires_at", "0"), ("access_token", "t1")]) :=
  ⟨fun _ _ _ _ _ _ => rfl, rfl, rfl⟩

/-- C4: destroy(id) deletes with the criteria field `uid` for every
kind, so it only works for the uid-keyed kinds.  For Session the
record is removed and find returns not-found, but for Code (primary
key `code`) destroy leaves the store unchanged and find still returns
the record, contradicting the claim. -/
theorem c4_destroy_uses_uid_for_all_kinds :
    upsert "Session" [] "s1" [] none
      = Except.ok ([("Session", [("uid", "s1")])], [("uid", "s1")])
    ∧ destroy "Session" [("Session", [("uid", "s1")])] "s1" = Except.ok []
    ∧ find "Session" ([] : Store) "s1" = Except.ok none
    ∧ upsert "Code" [] "c1" [] none
      = Except.ok ([("Code", [("code", "c1")])], [("code", "c1")])
    ∧ destroy "Code" [("Code", [("code", "c1")])] "c1"
      = Except.ok [("Code", [("code", "c1")])]
    ∧ find "Code" [("Code", [("code", "c1")])] "c1" = Except.ok (some [("code", "c1")]) :=
  ⟨rfl, rfl, rfl, rfl, rfl, rfl⟩

/-- C5 counterexample: the claim says that after destroy(D) none of the
three DeviceCode lookups returns the record, but destroy is a silent
no-op for the DeviceCode kind (it is absent from the destroy kind
list), so the record stored under device_code d1 and user_code u1 is
still returned by all three lookups after destroy(d1). -/
theorem c5_destroy_noop_devicecode_counterexample :
    upsert "DeviceCode" [] "d1" [("user_code", "u1")] none
      = Except.ok ([("DeviceCode", [("user_code", "u1"), ("device_code", "d1")])],
          [("user_code", "u1"), ("device_code", "d1")])
    ∧ destroy "DeviceCode" [("DeviceCode", [("user_code", "u1"), ("device_code", "d1")])] "d1"
      = Except.ok [("DeviceCode", [("user_code", "u1"), ("device_code", "d1")])]
    ∧ find "DeviceCode" [("DeviceCode", [("user_code", "u1"), ("device_code", "d1")])] "d1"
      = Except.ok (some [("user_code", "u1"), ("device_code", "d1")])
    ∧ findByUserCode "DeviceCode"
        [("DeviceCode", [("user_code", "u1"), ("device_code", "d1")])] "u1"
      = Except.ok (some [("user_code", "u1"), ("device_code", "d1")])
    ∧ findByUidAndUserCode "DeviceCode"
        [("DeviceCode", [("user_code", "u1"), ("device_code", "d1")])] "d1" "u1"
      = Except.ok (some [("user_code", "u1"), ("device_code", "d1")]) :=
  ⟨rfl, rfl, rfl, rfl, rfl⟩

/-- C5 as amended: a DeviceCode record stored under device_code D and
user_code U is retrievable via find(D), findByUserCode(U) and
findByUidAndUserCode(D, U); destroy(D) on the DeviceCode kind is a
silent no-op (DeviceCode is not among the kinds destroy handles), so
the store is unchanged and the record remains retrievable by all three
lookups afterwards. -/
theorem c5_devicecode_lookups_destroy_noop (D U : String) :
    ∃ (st1 : Store) (row : Row),
      upsert "DeviceCode" [] D [("user_code", U)] none = Except.ok (st1, row)
      ∧ find "DeviceCode" st1 D = Except.ok (some row)
      ∧ findByUserCode "DeviceCode" st1 U = Except.ok (some row)
      ∧ findByUidAndUserCode "DeviceCode" st1 D U = Except.ok (some row)
      ∧ destroy "DeviceCode" st1 D = Except.ok st1 := by
  refine ⟨[("DeviceCode", [("user_code", U), ("device_code", D)])],
    [("user_code", U), ("device_code", D)], rfl, ?_, ?_, ?_, rfl⟩
  · simp [find, pkOf, findOneIn, matchesRow, Row.get]
  · simp [findByUserCode, findOneIn, matchesRow, Row.get]
  · simp [findByUidAndUserCode, findOneIn, matchesRow, Row.get]

/-- C6 counterexample: a payload field that is not a column of the
schema of the kind is dropped by the merge, so the entity returned by
find after upsert does not contain every field present in the payload.
Upserting an AccessToken with payload field grantId leaves no trace of
it in the stored record. -/
theorem c6_noncolumn_payload_field_dropped :
    upsert "AccessToken" [] "t1" [("grantId", "g1")] none
      = Except.ok ([("AccessToken", [("access_token", "t1")])], [("access_token", "t1")])
    ∧ find "AccessToken" [("AccessToken", [("access_token", "t1")])] "t1"
      = Except.ok (some [("access_token", "t1")])
    ∧ Row.get [("access_token", "t1")] "grantId" = none :=
  ⟨rfl, rfl, rfl⟩

/-- C6 as amended: for every known kind, find(id) after
upsert(id, payload) returns an entity containing every payload field
that is a column of the schema of the kind (fields outside the schema
are dropped by the merge), and the merge is additive per field: fields
of the previously stored record that the payload does not mention keep
their old values.  The payload is required to have distinct keys (a JS
object cannot carry a duplicate key) and not to override the
primary-key field with a value other than id. -/
theorem c6_find_after_upsert_additive_merge (model pk : String) (st : Store)
    (id : String) (payload : Row) (ei : Option Nat)
    (hpk : pkOf model = some pk)
    (hnd : (payload.map Prod.fst).Nodup)
    (hid : ∀ v, (pk, v) ∈ payload → v = id) :
    ∃ (st1 : Store) (row : Row),
      upsert model st id payload ei = Except.ok (st1, row)
      ∧ find model st1 id = Except.ok (some row)
      ∧ (∀ f v, (f, v) ∈ payload → (columns model).contains f = true →
          Row.get row f = some v)
      ∧ (∀ f, (∀ q ∈ payload, q.1 ≠ f) →
          Row.get row f = Row.get (existingOrShell model pk st id) f) := by
  have hrowpk : Row.get (mergeCols (columns model) (existingOrShell model pk st id) payload) pk
      = some id := by
    by_cases hc : ∀ q ∈ payload, q.1 ≠ pk
    · rw [get_mergeCols_not_mem _ _ _ hc, existingOrShell_get]
    · push_neg at hc
      obtain ⟨q, hq, hqpk⟩ := hc
      have hmem : (pk, q.2) ∈ payload := by
        rw [← hqpk]
        simpa using hq
      rw [get_mergeCols_mem (columns model) payload pk q.2 hnd hmem (pk_mem_columns hpk),
        hid q.2 hmem]
  refine ⟨saveEntity model pk st
      (mergeCols (columns model) (existingOrShell model pk st id) payload),
    mergeCols (columns model) (existingOrShell model pk st id) payload, ?_, ?_, ?_, ?_⟩
  · simp [upsert, hpk]
  · simp only [find, hpk]
    rw [findOneIn_saveEntity hrowpk]
  · intro f v hmem hc
    exact get_mergeCols_mem _ _ _ _ hnd hmem hc _
  · intro f hf
    exact get_mergeCols_not_mem _ _ _ hf _

/-- C6 witness: concrete instance of the amended theorem on a stored
Session with a jti field, upserted with a payload that only sets
grantId. -/
theorem c6_find_after_upsert_additive_merge_witness :
    ∃ (st1 : Store) (row : Row),
      upsert "Session" [("Session", [("jti", "J"), ("uid", "s1")])] "s1"
          [("grantId", "G")] none = Except.ok (st1, row)
      ∧ find "Session" st1 "s1" = Except.ok (some row)
      ∧ (∀ f v, (f, v) ∈ [("grantId", "G")] → (columns "Session").contains f = true →
          Row.get row f = some v)
      ∧ (∀ f, (∀ q ∈ [("grantId", "G")], q.1 ≠ f) →
          Row.get row f
            = Row.get (existingOrShell "Session" "uid"
                [("Session", [("jti", "J"), ("uid", "s1")])] "s1") f) :=
  c6_find_after_upsert_additive_merge "Session" "uid"
    [("Session", [("jti", "J"), ("uid", "s1")])] "s1" [("grantId", "G")] none
    rfl (by decide) (by intro v hv; simp at hv)

/-- C7: every adapter operation invoked against an unrecognized entity
kind fails with a fatal error, because the factory call itself already
throws: connection.getRepository(model) raises RepositoryNotFoundError
for a name outside the eight registered schemas, so no adapter for an
unrecognized kind ever exists and composing construction with any of
the nine operations yields that fatal error, never a neutral result. -/
theorem c7_unknown_kind_operations_fatal (model : String) (st : Store)
    (id g u uc : String) (payload : Row) (ei : Option Nat)
    (h : registeredEntities.contains model = false) :
    typeormAdapter ConnState.connected model
      = Except.error ("No repository for " ++ model ++ " was found.")
    ∧ (typeormAdapter ConnState.connected model).bind
        (fun a => upsert a.model st id payload ei)
      = Except.error ("No repository for " ++ model ++ " was found.")
    ∧ (typeormAdapter ConnState.connected model).bind (fun a => find a.model st id)
      = Except.error ("No repository for " ++ model ++ " was found.")
    ∧ (typeormAdapter ConnState.connected model).bind (fun a => findByUid a.model st u)
      = Except.error ("No repository for " ++ model ++ " was found.")
    ∧ (typeormAdapter ConnState.connected model).bind
        (fun a => findByUserCode a.model st uc)
      = Except.error ("No repository for " ++ model ++ " was found.")
    ∧ (typeormAdapter ConnState.connected model).bind
        (fun a => findByUidAndUserCode a.model st id uc)
      = Except.error ("No repository for " ++ model ++ " was found.")
    ∧ (typeormAdapter ConnState.connected model).bind (fun a => destroy a.model st id)
      = Except.error ("No repository for " ++ model ++ " was found.")
    ∧ (typeormAdapter ConnState.connected model).bind (fun a => consume a.model st id)
      = Except.error ("No repository for " ++ model ++ " was found.")
    ∧ (typeormAdapter ConnState.connected model).bind
        (fun a => destroyByGrantId a.model st g)
      = Except.error ("No repository for " ++ model ++ " was found.")
    ∧ (typeormAdapter ConnState.connected model).bind
        (fun a => revokeByGrantId a.model st g)
      = Except.error ("No repository for " ++ model ++ " was found.") := by
  have herr : typeormAdapter ConnState.connected model
      = Except.error ("No repository for " ++ model ++ " was found.") := by
    show (match getRepository model with
      | Except.ok _ => Except.ok (Adapter.mk model)
      | Except.error e => Except.error e) = _
    rw [getRepository, if_neg (by rw [h]; exact Bool.false_ne_true)]
  refine ⟨herr, ?_, ?_, ?_, ?_, ?_, ?_, ?_, ?_, ?_⟩ <;> rw [herr] <;> rfl

/-- C7 witness: the theorem applied to the concrete unrecognized kind
name NoSuchKind on the empty store. -/
theorem c7_unknown_kind_operations_fatal_witness :
    typeormAdapter ConnState.connected "NoSuchKind"
      = Except.error ("No repository for " ++ "NoSuchKind" ++ " was found.")
    ∧ (typeormAdapter ConnState.connected "NoSuchKind").bind
        (fun a => upsert a.model [] "x" [] none)
      = Except.error ("No repository for " ++ "NoSuchKind" ++ " was found.")
    ∧ (typeormAdapter ConnState.connected "NoSuchKind").bind (fun a => find a.model [] "x")
      = Except.error ("No repository for " ++ "NoSuchKind" ++ " was found.")
    ∧ (typeormAdapter ConnState.connected "NoSuchKind").bind
        (fun a => findByUid a.model [] "u")
      = Except.error ("No repository for " ++ "NoSuchKind" ++ " was found.")
    ∧ (typeormAdapter ConnState.connected "NoSuchKind").bind
        (fun a => findByUserCode a.model [] "c")
      = Except.error ("No repository for " ++ "NoSuchKind" ++ " was found.")
    ∧ (typeormAdapter ConnState.connected "NoSuchKind").bind
        (fun a => findByUidAndUserCode a.model [] "x" "c")
      = Except.error ("No repository for " ++ "NoSuchKind" ++ " was found.")
    ∧ (typeormAdapter ConnState.connected "NoSuchKind").bind
        (fun a => destroy a.model [] "x")
      = Except.error ("No repository for " ++ "NoSuchKind" ++ " was found.")
    ∧ (typeormAdapter ConnState.connected "NoSuchKind").bind
        (fun a => consume a.model [] "x")
      = Except.error ("No repository for " ++ "NoSuchKind" ++ " was found.")
    ∧ (typeormAdapter ConnState.connected "NoSuchKind").bind
        (fun a => destroyByGrantId a.model [] "g")
      = Except.error ("No repository for " ++ "NoSuchKind" ++ " was found.")
    ∧ (typeormAdapter ConnState.connected "NoSuchKind").bind
        (fun a => revokeByGrantId a.model [] "g")
      = Except.error ("No repository for " ++ "NoSuchKind" ++ " was found.") :=
  c7_unknown_kind_operations_fatal "NoSuchKind" [] "x" "g" "u" "c" [] none rfl

/-- C8: findByUid coincides with the primary-key find for the Session
and Interaction kinds (both keyed by uid), and for every other kind it
returns a neutral not-found unconditionally, never an error. -/
theorem c8_findByUid_session_interaction_only :
    (∀ (st : Store) (uid : String), findByUid "Session" st uid = find "Session" st uid)
    ∧ (∀ (st : Store) (uid : String),
        findByUid "Interaction" st uid = find "Interaction" st uid)
    ∧ (∀ model : String, model ≠ "Session" → model ≠ "Interaction" →
        ∀ (st : Store) (uid : String), findByUid model st uid = Except.ok none) := by
  refine ⟨fun _ _ => rfl, fun _ _ => rfl, ?_⟩
  intro model h1 h2 st uid
  simp [findByUid, beq_eq_false_iff_ne.mpr h1, beq_eq_false_iff_ne.mpr h2]

/-- C8 witness: the unconditional not-found conjunct applied to the
AccessToken kind on the empty store. -/
theorem c8_findByUid_session_interaction_only_witness :
    findByUid "AccessToken" [] "u" = Except.ok none :=
  c8_findByUid_session_interaction_only.2.2 "AccessToken" (by decide) (by decide) [] "u"

/-- C10 counterexample: after initialization the factory does not
return an adapter for any model argument: for a name outside the eight
registered schemas, the connection.getRepository(model) call inside
the factory throws RepositoryNotFoundError instead of returning an
adapter. -/
theorem c10_factory_unknown_kind_counterexample :
    typeormAdapter (initializeAdapter ConnState.unset) "NotAKind"
      = Except.error ("No repository for " ++ "NotAKind" ++ " was found.") :=
  rfl

/-- C10 as amended: the factory throws while the module-level
connection is unset; after initializeAdapter has run, the factory body
performs no kind validation of its own, but its
connection.getRepository(model) call throws RepositoryNotFoundError
for any model outside the eight registered schemas, so an adapter
bound to the given kind is returned exactly for registered model
names. -/
theorem c10_factory_gate_and_repository_lookup :
    (∀ model : String, typeormAdapter ConnState.unset model
      = Except.error "TypeORM connection not established. Call initializeAdapter() first.")
    ∧ (∀ (c : ConnState) (model : String), registeredEntities.contains model = true →
        typeormAdapter (initializeAdapter c) model = Except.ok ⟨model⟩)
    ∧ (∀ (c : ConnState) (model : String), registeredEntities.contains model = false →
        typeormAdapter (initializeAdapter c) model
          = Except.error ("No repository for " ++ model ++ " was found.")) := by
  refine ⟨fun _ => rfl, ?_, ?_⟩
  · intro c model h
    show (match getRepository model with
      | Except.ok _ => Except.ok (Adapter.mk model)
      | Except.error e => Except.error e) = _
    rw [getRepository, if_pos h]
  · intro c model h
    show (match getRepository model with
      | Except.ok _ => Except.ok (Adapter.mk model)
      | Except.error e => Except.error e) = _
    rw [getRepository, if_neg (by rw [h]; exact Bool.false_ne_true)]

/-- C10 witness: the amended theorem at the registered kind Session and
at the unregistered name NotRegistered. -/
theorem c10_factory_gate_and_repository_lookup_witness :
    typeormAdapter (initializeAdapter ConnState.unset) "Session" = Except.ok ⟨"Session"⟩
    ∧ typeormAdapter (initializeAdapter ConnState.connected) "NotRegistered"
      = Except.error ("No repository for " ++ "NotRegistered" ++ " was found.") :=
  ⟨c10_factory_gate_and_repository_lookup.2.1 ConnState.unset "Session" rfl,
   c10_factory_gate_and_repository_lookup.2.2 ConnState.connected "NotRegistered" rfl⟩

/-!
Relying-party authorization-code flow (app.js, /callback route).

The route body is one call to the external openid-client function
`authorizationCodeGrant` inside try/catch: a thrown error is answered
with the Callback error response, success binds the tokens to the
session and redirects home.  The state comparison itself happens
inside the library call, which receives the stored session state as
`expectedState`; that library behaviour is modelled from the spec
boundary below.  The token endpoint is a parameter, and each result
carries the number of times it was invoked, so that "without invoking
the token exchange" and "never retried" are expressible.
-/

/-- A token set returned by the token endpoint. -/
structure TokenSet where
  access_token : String
  id_token : String
deriving DecidableEq

/-- Outcome of a token-endpoint exchange: a token set, or an error
(invalid, expired or already consumed code, PKCE mismatch, transport
failure). -/
inductive ExchangeOutcome where
  | tokens (t : TokenSet)
  | failure (e : String)
deriving DecidableEq

/-- The relying-party session fields the flow uses: the PKCE verifier
and state stored by /login, and the token set bound on success. -/
structure RpSession where
  code_verifier : String
  state : String
  tokenSet : Option TokenSet
deriving DecidableEq

/-- Query parameters of the redirect back to /callback. -/
structure CallbackParams where
  code : String
  state : String
deriving DecidableEq

/-- Modelled from the spec: `authorizationCodeGrant` of the external
openid-client library (not part of this repository) validates the
callback state against the supplied expectedState before anything
else - a mismatch aborts the flow without contacting the token
endpoint - and otherwise performs the code-for-token exchange with the
stored PKCE verifier exactly once.  The second component counts
token-endpoint invocations. -/
def authorizationCodeGrant (tokenEndpoint : String → String → ExchangeOutcome)
    (params : CallbackParams) (pkceCodeVerifier expectedState : String) :
    ExchangeOutcome × Nat :=
  if params.state == expectedState then
    (tokenEndpoint params.code pkceCodeVerifier, 1)
  else
    (ExchangeOutcome.failure "unexpected state parameter", 0)

/-- Terminal state of one login attempt at the /callback route:
authenticated (tokens stored, redirect home) or failed (the catch
branch answered with the Callback error response). -/
inductive FlowResult where
  | authenticated
  | failed
deriving DecidableEq

/-- The /callback route of app.js: one call to authorizationCodeGrant
with the session-stored verifier and state; on success the tokens are
bound to the session, on any thrown error the catch branch surfaces
the Callback error response and the session is left unchanged.  The
final component is the number of token-endpoint invocations. -/
def callbackRoute (tokenEndpoint : String → String → ExchangeOutcome)
    (sess : RpSession) (params : CallbackParams) : FlowResult × RpSession × Nat :=
  match authorizationCodeGrant tokenEndpoint params sess.code_verifier sess.state with
  | (ExchangeOutcome.tokens t, n) =>
    (FlowResult.authenticated, { sess with tokenSet := some t }, n)
  | (ExchangeOutcome.failure _, n) => (FlowResult.failed, sess, n)

/-- C9: if the callback state differs from the session-stored state the
flow terminates failed with zero token-endpoint invocations (the
exchange is never reached), and on any exchange failure the flow
terminates failed with at most one token-endpoint invocation - the
error is surfaced, never retried within the flow. -/
theorem c9_state_mismatch_fails_no_exchange_no_retry
    (tokenEndpoint : String → String → ExchangeOutcome)
    (sess : RpSession) (params : CallbackParams) :
    (params.state ≠ sess.state →
      callbackRoute tokenEndpoint sess params = (FlowResult.failed, sess, 0))
    ∧ (∀ e : String,
        tokenEndpoint params.code sess.code_verifier = ExchangeOutcome.failure e →
        (callbackRoute tokenEndpoint sess params).1 = FlowResult.failed
        ∧ (callbackRoute tokenEndpoint sess params).2.1 = sess
        ∧ (callbackRoute tokenEndpoint sess params).2.2 ≤ 1) := by
  constructor
  · intro h
    rw [callbackRoute, authorizationCodeGrant, if_neg (by simpa using h)]
  · intro e he
    by_cases hs : (params.state == sess.state) = true
    · simp only [callbackRoute, authorizationCodeGrant, if_pos hs, he]
      exact ⟨trivial, trivial, le_refl 1⟩
    · simp only [callbackRoute, authorizationCodeGrant, if_neg hs]
      exact ⟨trivial, trivial, Nat.zero_le 1⟩

/-- C9 witness: a session that stored state S1, a callback carrying
state S2, and a token endpoint that would reject the code anyway: the
flow fails with zero exchanges. -/
theorem c9_state_mismatch_fails_witness :
    callbackRoute (fun _ _ => ExchangeOutcome.failure "invalid_grant")
      ⟨"verifier1", "S1", none⟩ ⟨"code1", "S2"⟩
      = (FlowResult.failed, ⟨"verifier1", "S1", none⟩, 0) :=
  (c9_state_mismatch_fails_no_exchange_no_retry
    (fun _ _ => ExchangeOutcome.failure "invalid_grant")
    ⟨"verifier1", "S1", none⟩ ⟨"code1", "S2"⟩).1 (by decide)
